import Mathlib

/-!
Verification of the borrowing-power calculator
(`src/assets/js/calculator.js`).

The JavaScript source is shallowly embedded below. JS numbers are
modelled as exact rationals (`ℚ`), strings as Lean `String`s, and each
DOM-touching routine as a pure function over an explicit model of the
document. Definitions follow the source line by line; helper
definitions that model built-in JS/Intl behaviour say so in their doc
comments.
-/

/-! ## Decimal digit strings

Helpers modelling the JavaScript built-ins used by the source:
`parseInt(s, 10)` on digit-only strings, and integer rendering with
`toLocaleString` grouping.
-/

/-- The character for a single decimal digit value (`0`–`9`).
Values `≥ 9` all map to `'9'`; the source only ever uses values `< 10`. -/
def decDigit (k : Nat) : Char :=
  if k = 0 then '0' else if k = 1 then '1' else if k = 2 then '2'
  else if k = 3 then '3' else if k = 4 then '4' else if k = 5 then '5'
  else if k = 6 then '6' else if k = 7 then '7' else if k = 8 then '8'
  else '9'

/-- Numeric value of a decimal digit string, read left to right.
This is the value `parseInt(s, 10)` returns on a non-empty digit-only
string. -/
def decValue (l : List Char) : Nat :=
  l.foldl (fun a c => 10 * a + (c.toNat - 48)) 0

/-- Fuel-driven rendering of a natural number as its decimal digit
list, most significant digit first. -/
def toDecAux : Nat → Nat → List Char
  | 0, _ => []
  | fuel + 1, n =>
    if n < 10 then [decDigit n]
    else toDecAux fuel (n / 10) ++ [decDigit (n % 10)]

/-- Decimal digit list of a natural number (`n + 1` fuel always
suffices because the fuel drops by one while the number drops by a
factor of ten). -/
def toDecCharList (n : Nat) : List Char :=
  toDecAux (n + 1) n

/-- Decimal rendering of a natural number as a string. -/
def natToDecString (n : Nat) : String :=
  String.mk (toDecCharList n)

/-- Insert a thousands separator before every group of three digits,
working over the *reversed* digit list; `k` counts digits emitted since
the last separator. Models the grouping of `toLocaleString` for the
`en-AU` locale. -/
def groupAux : List Char → Nat → List Char
  | [], _ => []
  | c :: cs, k =>
    if k = 3 then ',' :: c :: groupAux cs 1
    else c :: groupAux cs (k + 1)

/-- Modelled JS built-in: `n.toLocaleString(\x27en-AU\x27)` for a
non-negative integer `n`, i.e. decimal rendering with comma thousands
separators. -/
def toLocaleStringEnAU (n : Nat) : String :=
  String.mk ((groupAux (toDecCharList n).reverse 0).reverse)

/-- Modelled JS built-in: `value.replace(/[^0-9]/g, \x27\x27)` — strip
every character that is not an ASCII decimal digit. -/
def jsStripNonDigits (s : String) : String :=
  String.mk (s.data.filter Char.isDigit)

/-- Modelled JS built-in: `parseInt(s, 10)` restricted to the
digit-only strings the source feeds it; `none` models `NaN` (empty
string). -/
def jsParseIntNat (s : String) : Option Nat :=
  if s.data.isEmpty then none else some (decValue s.data)

/-! ## Source: `formatNumberWithCommas` and `parseFormattedNumber`
(calculator.js lines 25–36). -/

/-- `formatNumberWithCommas(value)`: strip non-digits; empty → `""`;
otherwise `parseInt(num, 10).toLocaleString(\x27en-AU\x27)`. -/
def formatNumberWithCommas (value : String) : String :=
  let num := jsStripNonDigits value
  if num.data.isEmpty then ""
  else toLocaleStringEnAU (decValue num.data)

/-- `parseFormattedNumber(value)`: strip non-digits, then
`parseInt(cleaned, 10) || 0` (the `|| 0` turns `NaN` into `0`;
`parseInt` returning `0` also yields `0`). -/
def parseFormattedNumber (value : String) : Nat :=
  let cleaned := jsStripNonDigits value
  (jsParseIntNat cleaned).getD 0

/-! ## Source: multiple parsing (calculator.js line 53)

`const multiple = parseFloat(...) || 3;`
-/

/-- Modelled JS built-in: `parseFloat(s)` for inputs of the form
optional whitespace, optional sign, digits, optional decimal point and
fraction digits (exponents and `Infinity` are not modelled; the
calculator feeds it the numeric-input widget value). `none` models
`NaN`. -/
def jsParseFloat (s : String) : Option ℚ :=
  let l := s.data.dropWhile fun c => c == ' ' || c == '\t' || c == '\n' || c == '\r'
  let signAndRest : ℚ × List Char :=
    match l with
    | '-' :: rest => (-1, rest)
    | '+' :: rest => (1, rest)
    | _ => (1, l)
  let intPart := signAndRest.2.takeWhile Char.isDigit
  let afterInt := signAndRest.2.dropWhile Char.isDigit
  let fracPart : List Char :=
    match afterInt with
    | '.' :: rest => rest.takeWhile Char.isDigit
    | _ => []
  if intPart.isEmpty && fracPart.isEmpty then none
  else
    some (signAndRest.1 *
      ((decValue intPart : ℚ) + (decValue fracPart : ℚ) / 10 ^ fracPart.length))

/-- The multiple actually used by `calculate`:
`parseFloat(value) || 3` — `NaN` (parse failure) and the falsy number
`0` fall back to `3`; any other parsed value is used as is. -/
def jsMultiple (value : String) : ℚ :=
  match jsParseFloat value with
  | none => 3
  | some v => if v = 0 then 3 else v

/-! ## Source: purpose selection and the core computation
(calculator.js lines 45–48 and 50–67). -/

/-- The two loan purposes of the spec. On the wire the source only
tests the selector value against the string `"acquisition"`. -/
inductive Purpose where
  | acquisition
  | workingCapital
deriving DecidableEq, BEq, Repr

/-- `getSelectedPurpose()`: value of the checked purpose radio button,
or `"acquisition"` when none is checked (`selected ? selected.value :
\x27acquisition\x27`). -/
def getSelectedPurpose (checked : Option String) : String :=
  checked.getD "acquisition"

/-- The wire string delivers Acquisition exactly when it equals
`"acquisition"` (`purpose === \x27acquisition\x27`). -/
def purposeOfWire (s : String) : Purpose :=
  if s == "acquisition" then Purpose.acquisition else Purpose.workingCapital

/-- The derived figures computed by `calculate` (spec: DerivedFigures). -/
structure DerivedFigures where
  annualTrail : ℚ
  bookValue : ℚ
  accessAmount : ℚ
  accessPercent : String
  accessLabel : String
deriving DecidableEq, Repr

/-- The pure computation core of `calculate` (calculator.js lines
57–66): `annualTrail = monthlyTrail * 12`, `bookValue = annualTrail *
multiple`, `workingCapital = bookValue * 0.5`, `acquisitionFinance =
bookValue * 0.7`, with the access fields selected by the purpose. -/
def compute (monthlyTrail : Nat) (multiple : ℚ) (purpose : Purpose) :
    DerivedFigures :=
  let annualTrail : ℚ := (monthlyTrail : ℚ) * 12
  let bookValue : ℚ := annualTrail * multiple
  let workingCapital : ℚ := bookValue * 0.5
  let acquisitionFinance : ℚ := bookValue * 0.7
  let isAcquisition : Bool := purpose == Purpose.acquisition
  { annualTrail := annualTrail
    bookValue := bookValue
    accessAmount := if isAcquisition then acquisitionFinance else workingCapital
    accessPercent := if isAcquisition then "70%" else "50%"
    accessLabel := if isAcquisition then "Acquisition Finance" else "Working Capital" }

/-! ## Source: display formatting (calculator.js lines 16–23 and 69–70) -/

/-- Rounding to the nearest integer with ties away from zero, as used
by `Intl.NumberFormat` (`halfExpand`) and `toFixed`. -/
def jsRoundHalfAway (q : ℚ) : ℤ :=
  if q < 0 then -⌊-q + 1 / 2⌋ else ⌊q + 1 / 2⌋

/-- Modelled JS built-in: `formatCurrency(amount)` — the
`Intl.NumberFormat(\x27en-AU\x27, ...)` AUD formatter with zero
fraction digits: a dollar sign, grouped digits of the rounded absolute
amount, and a leading minus for negative amounts. -/
def formatCurrency (amount : ℚ) : String :=
  let r := jsRoundHalfAway amount
  if r < 0 then "-$" ++ toLocaleStringEnAU r.natAbs
  else "$" ++ toLocaleStringEnAU r.natAbs

/-- Modelled JS built-in: `x.toFixed(1)` — decimal rendering with one
fraction digit. -/
def jsToFixed1 (q : ℚ) : String :=
  let n := jsRoundHalfAway (q * 10)
  let sign := if n < 0 then "-" else ""
  sign ++ natToDecString (n.natAbs / 10) ++ "." ++ natToDecString (n.natAbs % 10)

/-! ## Source: `calculate` and `updateComparisonChart`
(calculator.js lines 50–82 and 86–143).

The document is modelled explicitly: the two input values and the
checked purpose radio are `Option`s (`none` = element absent /
nothing checked), `present` tells which display elements
`getElementById` finds, and `chartCanvas` whether the chart canvas
exists. Setting `textContent` on an absent element is a thrown
`TypeError`, which aborts `calculate`; the model records the updates
applied before the throw.
-/

/-- The document as `calculate` sees it. -/
structure Dom where
  monthlyTrailValue : Option String
  bookMultipleValue : Option String
  checkedPurpose : Option String
  present : String → Bool
  chartCanvas : Bool

/-- The dataset handed to the chart library by `updateComparisonChart`. -/
structure ChartRequest where
  labels : List String
  chartData : List ℚ
  backgroundColor : List String
deriving DecidableEq, Repr

/-- Outcome of one `calculate()` run: the `textContent` updates that
were applied (in order), the chart rebuild request if one was issued,
and whether a `TypeError` was thrown partway. -/
structure CalcResult where
  updates : List (String × String)
  chart : Option ChartRequest
  threw : Bool
deriving Repr

/-- Apply `textContent` updates in order; an absent target throws,
discarding the remaining updates. -/
def applyUpdates (present : String → Bool) :
    List (String × String) → List (String × String) × Bool
  | [] => ([], false)
  | (i, s) :: rest =>
    if present i then
      let r := applyUpdates present rest
      ((i, s) :: r.1, r.2)
    else ([], true)

/-- The display targets `calculate` writes, in source order
(calculator.js lines 69–79). -/
def displayIds : List String :=
  ["multipleDisplay", "displayMonthlyTrail", "annualTrail",
   "displayMultiple", "bookValue", "accessLabel", "accessAmount",
   "accessPercent"]

/-- The `textContent` strings `calculate` writes, paired with their
target ids, in source order. -/
def calcUpdates (figures : DerivedFigures) (multiple : ℚ)
    (monthlyTrail : Nat) : List (String × String) :=
  [("multipleDisplay", jsToFixed1 multiple ++ "x"),
   ("displayMonthlyTrail", formatCurrency (monthlyTrail : ℚ)),
   ("annualTrail", formatCurrency figures.annualTrail),
   ("displayMultiple", jsToFixed1 multiple ++ "x"),
   ("bookValue", formatCurrency figures.bookValue),
   ("accessLabel", figures.accessLabel),
   ("accessAmount", formatCurrency figures.accessAmount),
   ("accessPercent", figures.accessPercent ++ " of book value")]

/-- `updateComparisonChart(bookValue, accessAmount, isAcquisition)`:
returns without doing anything when the canvas is absent (`if (!ctx)
return;`), otherwise rebuilds the two-bar chart. -/
def updateComparisonChart (chartCanvas : Bool) (bookValue accessAmount : ℚ)
    (isAcquisition : Bool) : Option ChartRequest :=
  if chartCanvas then
    some
      { labels := ["Book Value",
          if isAcquisition then "Acquisition (70%)" else "Working Capital (50%)"]
        chartData := [bookValue, accessAmount]
        backgroundColor := ["#f26739",
          if isAcquisition then "#2e7d32" else "#1976d2"] }
  else none

/-- One run of `calculate()` over the modelled document. Reading
`.value` of an absent input element throws at once; each display
update throws when its target is absent; the chart step runs last and
is the only guarded step. -/
def calculate (dom : Dom) : CalcResult :=
  match dom.monthlyTrailValue with
  | none => { updates := [], chart := none, threw := true }
  | some trailValue =>
    match dom.bookMultipleValue with
    | none => { updates := [], chart := none, threw := true }
    | some multipleValue =>
      let monthlyTrail := parseFormattedNumber trailValue
      let multiple := jsMultiple multipleValue
      let purpose := getSelectedPurpose dom.checkedPurpose
      let p := purposeOfWire purpose
      let figures := compute monthlyTrail multiple p
      let applied := applyUpdates dom.present (calcUpdates figures multiple monthlyTrail)
      if applied.2 then { updates := applied.1, chart := none, threw := true }
      else
        { updates := applied.1
          chart := updateComparisonChart dom.chartCanvas figures.bookValue
            figures.accessAmount (p == Purpose.acquisition)
          threw := false }

/-! ## Source: `handleCurrencyInput` (calculator.js lines 145–159) -/

/-- A text input field: its value and the caret index
(`selectionStart`), always at most the value length. -/
structure InputField where
  value : String
  caret : Nat

/-- `handleCurrencyInput`: reformat the field value with grouping
separators, then move the caret to
`Math.max(0, cursorPosition + (newLength - oldLength))`
(`setSelectionRange` additionally clamps to the new length). -/
def handleCurrencyInput (f : InputField) : InputField :=
  let cursorPosition := f.caret
  let oldLength := f.value.length
  let formatted := formatNumberWithCommas f.value
  let newLength := formatted.length
  let diff : ℤ := (newLength : ℤ) - (oldLength : ℤ)
  let newPosition : ℤ := max 0 ((cursorPosition : ℤ) + diff)
  { value := formatted, caret := min newPosition.toNat newLength }

/-! ## Source: `debounce` (calculator.js lines 38–43, 84)

`debounce(func, delay)` clears the single stored timer handle and
re-arms it: at most one invocation is ever pending. The run model
processes timestamped firings in order; a pending timer whose expiry
has passed executes before the next firing replaces it, and a timer
still pending after the last firing eventually executes.
-/

/-- The debounce delay (calculator.js line 14). -/
def DEBOUNCE_DELAY : Nat := 300

/-- Executions produced by a sequence of timestamped debounced firings
`(time, args)`, given the currently pending `(expiry, args)` timer.
Each firing cancels the pending timer (executing it first if its
expiry already passed) and arms a new one `delay` later with the new
arguments. -/
def runDebounce {α : Type} (delay : Nat) :
    List (Nat × α) → Option (Nat × α) → List (Nat × α)
  | [], pending =>
    match pending with
    | none => []
    | some p => [p]
  | (t, a) :: rest, pending =>
    let fired :=
      match pending with
      | some (expiry, b) => if expiry ≤ t then [(expiry, b)] else []
      | none => []
    fired ++ runDebounce delay rest (some (t + delay, a))

/-- All consecutive firings are within the debounce window: each
firing happens strictly before the previous firing's timer expires. -/
def withinWindow {α : Type} (delay : Nat) : List (Nat × α) → Bool
  | [] => true
  | [_] => true
  | (t, _) :: (t2, a) :: rest =>
    decide (t2 < t + delay) && withinWindow delay ((t2, a) :: rest)

/-! ### Digit-string lemmas -/

theorem decDigit_isDigit (k : Nat) (h : k < 10) :
    (decDigit k).isDigit = true := by
  interval_cases k <;> decide

theorem decDigit_toNat (k : Nat) (h : k < 10) :
    (decDigit k).toNat - 48 = k := by
  interval_cases k <;> decide

theorem decValue_nil : decValue [] = 0 := rfl

theorem decValue_append_singleton (l : List Char) (c : Char) :
    decValue (l ++ [c]) = 10 * decValue l + (c.toNat - 48) := by
  simp [decValue, List.foldl_append]

theorem decValue_toDecAux (fuel n : Nat) (h : n < fuel) :
    decValue (toDecAux fuel n) = n := by
  induction fuel generalizing n with
  | zero => omega
  | succ fuel ih =>
    unfold toDecAux
    by_cases hn : n < 10
    · simp [hn, decValue, decDigit_toNat n hn]
    · have hdiv : n / 10 < n := Nat.div_lt_self (by omega) (by omega)
      have hmod : n % 10 < 10 := Nat.mod_lt _ (by omega)
      simp only [hn, if_false]
      rw [decValue_append_singleton, ih (n / 10) (by omega),
        decDigit_toNat _ hmod]
      omega

theorem decValue_toDecCharList (n : Nat) :
    decValue (toDecCharList n) = n :=
  decValue_toDecAux (n + 1) n (Nat.lt_succ_self n)

theorem toDecAux_isDigit (fuel n : Nat) :
    ∀ c ∈ toDecAux fuel n, c.isDigit = true := by
  induction fuel generalizing n with
  | zero => intro c hc; simp [toDecAux] at hc
  | succ fuel ih =>
    intro c hc
    unfold toDecAux at hc
    by_cases hn : n < 10
    · simp [hn] at hc
      simpa [hc] using decDigit_isDigit n hn
    · simp only [hn, if_false, List.mem_append, List.mem_singleton] at hc
      rcases hc with hc | hc
      · exact ih (n / 10) c hc
      · simpa [hc] using decDigit_isDigit (n % 10) (Nat.mod_lt _ (by omega))

theorem toDecAux_ne_nil (fuel n : Nat) (h : 0 < fuel) :
    toDecAux fuel n ≠ [] := by
  cases fuel with
  | zero => omega
  | succ fuel =>
    unfold toDecAux
    by_cases hn : n < 10 <;> simp [hn]

theorem groupAux_filter (l : List Char) :
    ∀ k, (∀ c ∈ l, c.isDigit = true) →
      (groupAux l k).filter Char.isDigit = l := by
  induction l with
  | nil => intro k _; simp [groupAux]
  | cons c cs ih =>
    intro k hdig
    have hc : c.isDigit = true := hdig c (List.mem_cons_self c cs)
    have hcs : ∀ x ∈ cs, x.isDigit = true :=
      fun x hx => hdig x (List.mem_cons_of_mem c hx)
    by_cases hk : k = 3
    · simp [groupAux, hk, List.filter_cons, hc, ih 1 hcs]
    · simp [groupAux, hk, List.filter_cons, hc, ih (k + 1) hcs]

/-! ## Shared lemmas about `calculate` -/

theorem applyUpdates_all_present (present : String → Bool)
    (us : List (String × String)) (h : ∀ u ∈ us, present u.1 = true) :
    applyUpdates present us = (us, false) := by
  induction us with
  | nil => rfl
  | cons u rest ih =>
    obtain ⟨i, s⟩ := u
    have hi : present i = true := h (i, s) (List.mem_cons_self _ _)
    simp [applyUpdates, hi,
      ih fun x hx => h x (List.mem_cons_of_mem _ hx)]

theorem calcUpdates_map_fst (figures : DerivedFigures) (multiple : ℚ)
    (monthlyTrail : Nat) :
    (calcUpdates figures multiple monthlyTrail).map Prod.fst = displayIds := rfl

theorem acquisition_beq_acquisition :
    (Purpose.acquisition == Purpose.acquisition) = true := rfl

theorem workingCapital_beq_acquisition :
    (Purpose.workingCapital == Purpose.acquisition) = false := rfl

/-! ## Claims -/

/-- C1: for every non-negative integer monthly trail `m`, positive
multiple `k` and purpose, the computation yields
`annualTrail = m * 12`, `bookValue = m * 12 * k`, and access figures
`0.7 * bookValue` / `"70%"` / `"Acquisition Finance"` under
Acquisition and `0.5 * bookValue` / `"50%"` / `"Working Capital"`
under Working Capital. -/
theorem compute_figures_correct (m : Nat) (k : ℚ) (hk : 0 < k) :
    (compute m k Purpose.acquisition).annualTrail = (m : ℚ) * 12 ∧
    (compute m k Purpose.acquisition).bookValue = (m : ℚ) * 12 * k ∧
    (compute m k Purpose.acquisition).accessAmount =
      0.7 * (compute m k Purpose.acquisition).bookValue ∧
    (compute m k Purpose.acquisition).accessPercent = "70%" ∧
    (compute m k Purpose.acquisition).accessLabel = "Acquisition Finance" ∧
    (compute m k Purpose.workingCapital).annualTrail = (m : ℚ) * 12 ∧
    (compute m k Purpose.workingCapital).bookValue = (m : ℚ) * 12 * k ∧
    (compute m k Purpose.workingCapital).accessAmount =
      0.5 * (compute m k Purpose.workingCapital).bookValue ∧
    (compute m k Purpose.workingCapital).accessPercent = "50%" ∧
    (compute m k Purpose.workingCapital).accessLabel = "Working Capital" := by
  refine ⟨?_, ?_, ?_, ?_, ?_, ?_, ?_, ?_, ?_, ?_⟩ <;>
    simp [compute, acquisition_beq_acquisition,
      workingCapital_beq_acquisition] <;> ring

/-- C1 witness: the formulas at `m = 2`, `k = 3`. -/
theorem compute_figures_correct_witness :
    (0 : ℚ) < 3 ∧
    (compute 2 3 Purpose.acquisition).bookValue = ((2 : Nat) : ℚ) * 12 * 3 :=
  ⟨by decide, (compute_figures_correct 2 3 (by decide)).2.1⟩

/-- C8: the concrete scenario `monthlyTrail = 10000`,
`multiple = 3.0`: `annualTrail = 120000`, `bookValue = 360000`,
`accessAmount = 252000` / `"70%"` under Acquisition and
`accessAmount = 180000` / `"50%"` under Working Capital. -/
theorem compute_scenario_10000 :
    (compute 10000 3 Purpose.acquisition).annualTrail = 120000 ∧
    (compute 10000 3 Purpose.acquisition).bookValue = 360000 ∧
    (compute 10000 3 Purpose.acquisition).accessAmount = 252000 ∧
    (compute 10000 3 Purpose.acquisition).accessPercent = "70%" ∧
    (compute 10000 3 Purpose.workingCapital).annualTrail = 120000 ∧
    (compute 10000 3 Purpose.workingCapital).bookValue = 360000 ∧
    (compute 10000 3 Purpose.workingCapital).accessAmount = 180000 ∧
    (compute 10000 3 Purpose.workingCapital).accessPercent = "50%" := by
  refine ⟨?_, ?_, ?_, ?_, ?_, ?_, ?_, ?_⟩ <;>
    norm_num [compute, acquisition_beq_acquisition,
      workingCapital_beq_acquisition]

/-- C5: `parseFormattedNumber` strips all non-digit characters and
parses the remainder as a non-negative integer; an input that is empty
or has no digits yields `0`; in particular
`parseFormattedNumber "" = 0` and
`parseFormattedNumber "1,234abc" = 1234`. -/
theorem parseFormattedNumber_correct :
    (∀ s : String,
      parseFormattedNumber s = decValue (s.data.filter Char.isDigit)) ∧
    (∀ s : String, s.data.filter Char.isDigit = [] →
      parseFormattedNumber s = 0) ∧
    parseFormattedNumber "" = 0 ∧
    parseFormattedNumber "1,234abc" = 1234 := by
  have h : ∀ s : String,
      parseFormattedNumber s = decValue (s.data.filter Char.isDigit) := by
    intro s
    by_cases he : s.data.filter Char.isDigit = [] <;>
      simp [parseFormattedNumber, jsStripNonDigits, jsParseIntNat,
        List.isEmpty_iff, he, decValue_nil]
  exact ⟨h, fun s hs => by rw [h s, hs, decValue_nil], by decide, by decide⟩

/-- C5 witness: an all-letter input has no digits and parses to `0`. -/
theorem parseFormattedNumber_correct_witness :
    parseFormattedNumber "abc" = 0 :=
  parseFormattedNumber_correct.2.1 "abc" (by decide)

/-- C6: `formatNumberWithCommas` strips every non-digit character and
renders the remaining integer with comma thousands separators,
returning `""` on empty input; in particular
`formatNumberWithCommas "1234567" = "1,234,567"`. -/
theorem formatNumberWithCommas_correct :
    formatNumberWithCommas "1234567" = "1,234,567" ∧
    formatNumberWithCommas "" = "" ∧
    ∀ s : String, formatNumberWithCommas s =
      (if s.data.filter Char.isDigit = [] then ""
       else toLocaleStringEnAU (decValue (s.data.filter Char.isDigit))) := by
  refine ⟨by decide, by decide, ?_⟩
  intro s
  by_cases he : s.data.filter Char.isDigit = [] <;>
    simp [formatNumberWithCommas, jsStripNonDigits, List.isEmpty_iff, he]

/-- C10: for every non-empty decimal digit string, parsing the grouped
rendering recovers the number: the thousands-separator formatting is
lossless under `parseFormattedNumber`. -/
theorem parse_format_roundtrip (d : String) (hne : d.data ≠ [])
    (hdig : ∀ c ∈ d.data, c.isDigit = true) :
    parseFormattedNumber (formatNumberWithCommas d) = decValue d.data := by
  have hfilter : d.data.filter Char.isDigit = d.data :=
    List.filter_eq_self.mpr hdig
  have hfmt : formatNumberWithCommas d = toLocaleStringEnAU (decValue d.data) := by
    simp [formatNumberWithCommas, jsStripNonDigits, List.isEmpty_iff,
      hfilter, hne]
  rw [hfmt]
  have hdigits : ∀ c ∈ toDecCharList (decValue d.data), c.isDigit = true :=
    toDecAux_isDigit _ _
  have hgroup :
      (groupAux (toDecCharList (decValue d.data)).reverse 0).filter Char.isDigit =
        (toDecCharList (decValue d.data)).reverse :=
    groupAux_filter _ 0 fun c hc => hdigits c (List.mem_reverse.mp hc)
  have hstrip :
      (toLocaleStringEnAU (decValue d.data)).data.filter Char.isDigit =
        toDecCharList (decValue d.data) := by
    show ((groupAux (toDecCharList (decValue d.data)).reverse 0).reverse).filter
        Char.isDigit = toDecCharList (decValue d.data)
    rw [List.filter_reverse, hgroup, List.reverse_reverse]
  have hne2 : toDecCharList (decValue d.data) ≠ [] :=
    toDecAux_ne_nil _ _ (Nat.succ_pos _)
  simp [parseFormattedNumber, jsStripNonDigits, jsParseIntNat,
    List.isEmpty_iff, hstrip, hne2, decValue_toDecCharList]

/-- C10 witness: the round trip at the digit string `"1234567"`. -/
theorem parse_format_roundtrip_witness :
    parseFormattedNumber (formatNumberWithCommas "1234567") =
      decValue ("1234567".data) :=
  parse_format_roundtrip "1234567" (by decide) (by decide)

/-- C7: after a keystroke-driven reformat, the caret lands at
`max(0, oldCaretIndex + (newLength - oldLength))`, where `oldLength`
and `newLength` are the value lengths before and after reformatting. -/
theorem handleCurrencyInput_caret (f : InputField)
    (h : f.caret ≤ f.value.length) :
    (handleCurrencyInput f).value = formatNumberWithCommas f.value ∧
    ((handleCurrencyInput f).caret : ℤ) =
      max 0 ((f.caret : ℤ) +
        (((formatNumberWithCommas f.value).length : ℤ) -
          (f.value.length : ℤ))) := by
  refine ⟨rfl, ?_⟩
  simp only [handleCurrencyInput]
  omega

/-- C7 witness: typing into `"1234"` with the caret at index 2; the
reformat to `"1,234"` moves the caret to index 3. -/
theorem handleCurrencyInput_caret_witness :
    (handleCurrencyInput ⟨"1234", 2⟩).value = formatNumberWithCommas "1234" ∧
    ((handleCurrencyInput ⟨"1234", 2⟩).caret : ℤ) =
      max 0 ((2 : ℤ) +
        (((formatNumberWithCommas "1234").length : ℤ) -
          (("1234" : String).length : ℤ))) :=
  handleCurrencyInput_caret ⟨"1234", 2⟩ (by decide)

/-- C2 counterexample: the user text `"-2"` parses to the truthy value
`-2`, so the multiple actually used is `-2` — not strictly positive. -/
theorem jsMultiple_negative_counterexample :
    jsMultiple "-2" = -2 ∧ ¬ (0 < jsMultiple "-2") := by
  have h1 : jsParseFloat "-2" =
      some (-1 * ((decValue ['2'] : ℚ) +
        (decValue [] : ℚ) / 10 ^ ([] : List Char).length)) := rfl
  have hd2 : decValue ['2'] = 2 := by decide
  have h2 : (-1 * ((decValue ['2'] : ℚ) +
      (decValue [] : ℚ) / 10 ^ ([] : List Char).length)) = -2 := by
    rw [hd2, decValue_nil]
    norm_num
  have h3 : jsMultiple "-2" = -2 := by
    unfold jsMultiple
    rw [h1, h2]
    norm_num
  exact ⟨h3, by rw [h3]; norm_num⟩

/-- C2 amended: if the multiple text fails to parse or parses to the
falsy value `0`, the multiple used is exactly `3`; otherwise the
parsed value is used as is — it is positive only when the parsed value
is positive (a negative parse is used unchanged). -/
theorem jsMultiple_fallback (s : String) :
    (jsParseFloat s = none → jsMultiple s = 3) ∧
    (jsParseFloat s = some 0 → jsMultiple s = 3) ∧
    (∀ v : ℚ, jsParseFloat s = some v → v ≠ 0 → jsMultiple s = v) := by
  refine ⟨fun h => ?_, fun h => ?_, fun v h hv => ?_⟩
  · unfold jsMultiple; rw [h]
  · unfold jsMultiple; rw [h]; simp
  · unfold jsMultiple; rw [h]; simp [hv]

/-- C2 amended witness: `"abc"` fails to parse, so the fallback `3` is
used. -/
theorem jsMultiple_fallback_witness : jsMultiple "abc" = 3 :=
  (jsMultiple_fallback "abc").1 rfl

/-- C9: with no purpose radio checked, the purpose defaults to
`"acquisition"` and the recomputation completes on the 70% branch
rather than failing. -/
theorem default_purpose_acquisition (tv bv : String) (pres : String → Bool)
    (chart : Bool) (hpres : ∀ i ∈ displayIds, pres i = true) :
    getSelectedPurpose none = "acquisition" ∧
    (calculate ⟨some tv, some bv, none, pres, chart⟩).threw = false ∧
    ("accessLabel", "Acquisition Finance") ∈
      (calculate ⟨some tv, some bv, none, pres, chart⟩).updates ∧
    ("accessPercent", "70% of book value") ∈
      (calculate ⟨some tv, some bv, none, pres, chart⟩).updates := by
  have hp : purposeOfWire (getSelectedPurpose none) = Purpose.acquisition := rfl
  have hall : ∀ figures multiple monthlyTrail,
      ∀ u ∈ calcUpdates figures multiple monthlyTrail, pres u.1 = true := by
    intro figures multiple monthlyTrail u hu
    refine hpres u.1 ?_
    rw [← calcUpdates_map_fst figures multiple monthlyTrail]
    exact List.mem_map_of_mem Prod.fst hu
  have hlabel : ∀ m : Nat, ∀ k : ℚ,
      (compute m k Purpose.acquisition).accessLabel = "Acquisition Finance" := by
    intro m k
    simp [compute, acquisition_beq_acquisition]
  have hpercent : ∀ m : Nat, ∀ k : ℚ,
      (compute m k Purpose.acquisition).accessPercent = "70%" := by
    intro m k
    simp [compute, acquisition_beq_acquisition]
  refine ⟨rfl, ?_, ?_, ?_⟩ <;>
    simp only [calculate, hp,
      applyUpdates_all_present pres _ (hall _ _ _), if_false] <;>
    simp [calcUpdates, hlabel, hpercent]

/-- C9 witness: a fully populated document with nothing checked. -/
theorem default_purpose_acquisition_witness :
    getSelectedPurpose none = "acquisition" ∧
    (calculate ⟨some "10,000", some "3", none, fun _ => true, true⟩).threw
      = false ∧
    ("accessLabel", "Acquisition Finance") ∈
      (calculate ⟨some "10,000", some "3", none, fun _ => true, true⟩).updates ∧
    ("accessPercent", "70% of book value") ∈
      (calculate ⟨some "10,000", some "3", none, fun _ => true, true⟩).updates :=
  default_purpose_acquisition "10,000" "3" (fun _ => true) true
    (fun i _ => rfl)

/-- C3 counterexample: in a document where only the display element
`multipleDisplay` is absent (all inputs and every other target
present), `calculate` throws at that first update — the remaining
update steps do not execute, contradicting "skipped while all
remaining update steps still execute, and never throws". -/
theorem calculate_missing_target_counterexample :
    (calculate ⟨some "10,000", some "3", none,
      fun i => i != "multipleDisplay", true⟩).threw = true ∧
    (calculate ⟨some "10,000", some "3", none,
      fun i => i != "multipleDisplay", true⟩).updates = [] ∧
    (calculate ⟨some "10,000", some "3", none,
      fun i => i != "multipleDisplay", true⟩).chart = none :=
  ⟨rfl, rfl, rfl⟩

/-- C3 amended: only the chart canvas target degrades gracefully —
when it is the missing one (inputs and all text targets present), the
chart step is skipped while every text update still executes and
nothing is thrown; a missing text display target instead aborts the
run with a throw (see the counterexample). -/
theorem calculate_skips_missing_chart (tv bv : String) (chk : Option String)
    (pres : String → Bool) (hpres : ∀ i ∈ displayIds, pres i = true) :
    (calculate ⟨some tv, some bv, chk, pres, false⟩).threw = false ∧
    (calculate ⟨some tv, some bv, chk, pres, false⟩).chart = none ∧
    (calculate ⟨some tv, some bv, chk, pres, false⟩).updates.map Prod.fst
      = displayIds := by
  have hall : ∀ figures multiple monthlyTrail,
      ∀ u ∈ calcUpdates figures multiple monthlyTrail, pres u.1 = true := by
    intro figures multiple monthlyTrail u hu
    refine hpres u.1 ?_
    rw [← calcUpdates_map_fst figures multiple monthlyTrail]
    exact List.mem_map_of_mem Prod.fst hu
  refine ⟨?_, ?_, ?_⟩ <;>
    simp [calculate, applyUpdates_all_present pres _ (hall _ _ _),
      updateComparisonChart, calcUpdates_map_fst]

/-- C3 amended witness: every element present except the chart canvas. -/
theorem calculate_skips_missing_chart_witness :
    (calculate ⟨some "5,000", some "2.5", some "working",
      fun _ => true, false⟩).threw = false ∧
    (calculate ⟨some "5,000", some "2.5", some "working",
      fun _ => true, false⟩).chart = none ∧
    (calculate ⟨some "5,000", some "2.5", some "working",
      fun _ => true, false⟩).updates.map Prod.fst = displayIds :=
  calculate_skips_missing_chart "5,000" "2.5" (some "working")
    (fun _ => true) (fun _ _ => rfl)

/-- A firing that arrives while the pending timer has not yet expired
executes nothing at once: it just replaces the pending timer. -/
theorem runDebounce_cons_pending {α : Type} (delay t : Nat) (a : α)
    (rest : List (Nat × α)) (pending : Option (Nat × α))
    (hp : ∀ e : Nat × α, pending = some e → t < e.1) :
    runDebounce delay ((t, a) :: rest) pending =
      runDebounce delay rest (some (t + delay, a)) := by
  cases pending with
  | none => rfl
  | some e =>
    obtain ⟨expiry, b⟩ := e
    have ht : t < expiry := hp (expiry, b) rfl
    show (if expiry ≤ t then [(expiry, b)] else []) ++
      runDebounce delay rest (some (t + delay, a)) = _
    rw [if_neg (by omega), List.nil_append]

/-- Core debounce lemma: if every firing happens strictly before the
previously armed timer expires, and any initially pending timer
expires strictly after the first firing, then exactly the last
firing's timer executes. -/
theorem runDebounce_last_only {α : Type} (delay : Nat)
    (fires : List (Nat × α)) :
    ∀ last : Nat × α, fires.getLast? = some last →
      withinWindow delay fires = true →
      ∀ pending : Option (Nat × α),
        (∀ e : Nat × α, pending = some e →
          ∀ f0 : Nat × α, fires.head? = some f0 → f0.1 < e.1) →
        runDebounce delay fires pending = [(last.1 + delay, last.2)] := by
  induction fires with
  | nil => intro last h; simp at h
  | cons f rest ih =>
    obtain ⟨t, a⟩ := f
    intro last hlast hw pending hp
    rw [runDebounce_cons_pending delay t a rest pending
      fun e he => hp e he (t, a) rfl]
    cases rest with
    | nil =>
      simp only [List.getLast?_singleton, Option.some.injEq] at hlast
      subst hlast
      rfl
    | cons f2 rest2 =>
      obtain ⟨t2, a2⟩ := f2
      have hw2 : t2 < t + delay ∧
          withinWindow delay ((t2, a2) :: rest2) = true := by
        rw [withinWindow] at hw
        simpa using hw
      refine ih last ?_ hw2.2 (some (t + delay, a)) ?_
      · rw [← hlast, List.getLast?_cons_cons]
      · intro e he f0 hf0
        simp only [Option.some.injEq] at he
        simp only [List.head?_cons, Option.some.injEq] at hf0
        subst he
        subst hf0
        simpa using hw2.1

/-- C4: five debounced firings all within the 300-unit window collapse
to exactly one recomputation, executed with the arguments of the final
firing (each firing cancels the pending timer and re-arms a single
one). -/
theorem debounce_five_fires_once {α : Type} (fires : List (Nat × α))
    (h5 : fires.length = 5) (last : Nat × α)
    (hlast : fires.getLast? = some last)
    (hw : withinWindow DEBOUNCE_DELAY fires = true) :
    runDebounce DEBOUNCE_DELAY fires none =
      [(last.1 + DEBOUNCE_DELAY, last.2)] :=
  runDebounce_last_only DEBOUNCE_DELAY fires last hlast hw none
    (fun e he => nomatch he)

/-- C4 witness: five firings 100 units apart with payloads `1`–`5`;
only the timer of the fifth executes, 300 units after it. -/
theorem debounce_five_fires_once_witness :
    runDebounce DEBOUNCE_DELAY
      [(0, 1), (100, 2), (200, 3), (300, 4), (400, 5)] none =
      [(400 + DEBOUNCE_DELAY, 5)] :=
  debounce_five_fires_once
    [((0 : Nat), (1 : Nat)), (100, 2), (200, 3), (300, 4), (400, 5)]
    rfl (400, 5) rfl (by decide)
